import Mathlib

/-!
Verification of the OTP-gated identity core of the `follower` backend.

The embedding models the user rows of the Prisma store as a list of
records, and the auth route handlers (`routes/auth.js`) together with the
OTP utility functions (`utils/otp.js`) as pure state-passing functions.
Time is milliseconds since the epoch (a `Nat`); the cryptographic draw of
`crypto.randomInt` and the generated code are passed in as parameters, as
are the password hashing and comparison functions (`utils/password.js`,
bcrypt) since the handlers only thread them through.
-/

namespace Follower

/-- A user row of the Prisma store: identity and credential fields plus the
one-time-code slot (`otpCode`, `otpType`, `otpExpiresAt`, `otpUsed`).
Nullable columns are `Option`; `otpExpiresAt` is a timestamp in ms. -/
structure User where
  id : Nat
  fullname : String
  email : String
  password : String
  isVerified : Bool
  otpCode : Option String := none
  otpType : Option String := none
  otpExpiresAt : Option Nat := none
  otpUsed : Bool := false
deriving Repr, DecidableEq

/-- The user table. -/
abbrev Db := List User

/-- `prisma.user.findUnique({ where: { email } })`. -/
def findByEmail (db : Db) (email : String) : Option User :=
  db.find? (fun u => u.email == email)

/-- JavaScript coerces `null` to `0` when a nullable `Date` is compared
with `<=`, so a missing expiry behaves as the epoch. -/
def dateVal : Option Nat → Nat
  | none => 0
  | some t => t

/-- `10 * 60 * 1000` ms: the expiry window added by `storeOTP`. -/
def otpWindowMs : Nat := 10 * 60 * 1000

/-- `storeOTP(email, otp, type)`: overwrite the code slot of the user with
this email with the fresh code, purpose, `now + 10 minutes` expiry and
`used = false`.  (`prisma.user.update` touches exactly the rows matching
the email; every caller in `routes/auth.js` has already checked that the
user exists.) -/
def storeOTP (db : Db) (email otp ty : String) (now : Nat) : Db :=
  db.map (fun u =>
    if u.email == email then
      { u with otpCode := some otp, otpType := some ty,
               otpExpiresAt := some (now + otpWindowMs), otpUsed := false }
    else u)

/-- `verifyOTP(email, otp, type)`: find the user; fail unless the stored
code, purpose, used-flag and expiry all check out; on success mark the
code used.  Returns the boolean result and the updated table. -/
def verifyOTP (db : Db) (email otp ty : String) (now : Nat) : Bool × Db :=
  match db.find? (fun u => u.email == email) with
  | none => (false, db)
  | some user =>
    if user.otpCode != some otp || user.otpType != some ty || user.otpUsed
        || decide (dateVal user.otpExpiresAt ≤ now) then
      (false, db)
    else
      (true, db.map (fun u =>
        if u.email == email then { u with otpUsed := true } else u))

/-- `cleanupExpiredOTPs()`: `updateMany` clearing the code slot of every
row whose `otpExpiresAt` is strictly before now.  Prisma's `lt` filter
does not match `NULL` columns, so rows without an expiry are untouched. -/
def cleanupExpiredOTPs (db : Db) (now : Nat) : Db :=
  db.map (fun u =>
    if (match u.otpExpiresAt with
        | some t => decide (t < now)
        | none => false) then
      { u with otpCode := none, otpType := none,
               otpExpiresAt := none, otpUsed := false }
    else u)

/-- The set of values `crypto.randomInt(100000, 999999)` can return: the
upper bound is exclusive per the Node.js API. -/
def randomIntDraw (n : Nat) : Prop := 100000 ≤ n ∧ n < 999999

/-- `generateOTP()` result as a function of the drawn integer:
`crypto.randomInt(100000, 999999).toString()`. -/
def generateOTP (n : Nat) : String := Nat.repr n

/-- The JWT payload minted by `generateToken(userId, email)`:
`{ userId, email, iat: floor(Date.now() / 1000) }`. -/
structure Token where
  userId : Nat
  email : String
  iat : Nat
deriving Repr, DecidableEq

/-- `generateToken` from `utils/jwt.js`, modelled as its signed payload. -/
def generateToken (userId : Nat) (email : String) (now : Nat) : Token :=
  { userId := userId, email := email, iat := now / 1000 }

/-- The distinct JSON envelopes the auth handlers can produce. -/
inductive AuthResult where
  /-- 400: a required request field is missing (in-handler falsy check). -/
  | fieldsRequired : AuthResult
  /-- 400 "User already registered". -/
  | userAlreadyRegistered : AuthResult
  /-- 200 register-initiate for an existing unverified user: code sent. -/
  | otpSentRegistration : AuthResult
  /-- 200 register-initiate for a fresh email: user created, code sent. -/
  | userCreatedOtpSent : AuthResult
  /-- 400 "Invalid or expired OTP". -/
  | invalidOrExpiredOtp : AuthResult
  /-- 201: registration completed; profile and session token returned. -/
  | registered : User → Token → AuthResult
  /-- 404 login: "User not exist". -/
  | userNotExist : AuthResult
  /-- 200 login of an unverified user: code sent, verify to continue. -/
  | emailNotVerifiedOtpSent : AuthResult
  /-- 401 "Invalid email or password". -/
  | invalidCredentials : AuthResult
  /-- 200 login success: profile and session token returned. -/
  | loginSuccess : User → Token → AuthResult
  /-- 404 "User not found" (forgot-password, reset-password). -/
  | userNotFound : AuthResult
  /-- 200 forgot-password: reset code sent. -/
  | otpSentReset : AuthResult
  /-- 200 "Password reset successfully". -/
  | passwordResetSuccess : AuthResult
  /-- 500: an unexpected store failure reached the catch block. -/
  | internalError : AuthResult
deriving Repr, DecidableEq

/-- `POST /api/auth/register/initiate`.  `hash` is `hashPassword` from
`utils/password.js`; `otp` the code produced by `generateOTP`; `now` the
request time.  The handler checks the three body fields for falsiness
(empty string), branches on user existence and verification, and issues a
`registration` code.  `sendOTP` only performs I/O, so it does not appear
in the state. -/
def registerInitiate (db : Db) (fullname email password : String)
    (hash : String → String) (otp : String) (now : Nat) : AuthResult × Db :=
  if fullname == "" || email == "" || password == "" then
    (.fieldsRequired, db)
  else
    match db.find? (fun u => u.email == email) with
    | some existing =>
      if existing.isVerified then
        (.userAlreadyRegistered, db)
      else
        (.otpSentRegistration, storeOTP db email otp "registration" now)
    | none =>
      let hashedPassword := hash password
      let newUser : User :=
        { id := db.length, fullname := fullname, email := email,
          password := hashedPassword, isVerified := false }
      (.userCreatedOtpSent,
        storeOTP (db ++ [newUser]) email otp "registration" now)

/-- `POST /api/auth/register/verify`: verify a `registration` code; on
success set `isVerified = true` and mint a session token. -/
def registerVerify (db : Db) (email otp : String) (now : Nat) :
    AuthResult × Db :=
  if email == "" || otp == "" then
    (.fieldsRequired, db)
  else
    let res := verifyOTP db email otp "registration" now
    if !res.1 then
      (.invalidOrExpiredOtp, res.2)
    else
      let db2 := res.2.map (fun u =>
        if u.email == email then { u with isVerified := true } else u)
      match db2.find? (fun u => u.email == email) with
      | some user =>
        (.registered user (generateToken user.id user.email now), db2)
      | none => (.internalError, db2)

/-- `POST /api/auth/login` handler.  `compare` is `comparePassword`.  An
absent user is a 404; an unverified user gets a `registration` code with
no password check; a verified user has the password compared. -/
def login (db : Db) (email password : String)
    (compare : String → String → Bool) (otp : String) (now : Nat) :
    AuthResult × Db :=
  match db.find? (fun u => u.email == email) with
  | none => (.userNotExist, db)
  | some user =>
    if !user.isVerified then
      (.emailNotVerifiedOtpSent, storeOTP db email otp "registration" now)
    else if !(compare password user.password) then
      (.invalidCredentials, db)
    else
      (.loginSuccess user (generateToken user.id user.email now), db)

/-- `POST /api/auth/forgot-password`: issue a `forgot_password` code for
an existing user; 404 otherwise. -/
def forgotPassword (db : Db) (email : String) (otp : String) (now : Nat) :
    AuthResult × Db :=
  if email == "" then
    (.fieldsRequired, db)
  else
    match db.find? (fun u => u.email == email) with
    | none => (.userNotFound, db)
    | some _ =>
      (.otpSentReset, storeOTP db email otp "forgot_password" now)

/-- `POST /api/auth/reset-password`: verify a `forgot_password` code,
re-fetch the user, hash the new password and overwrite it (the update is
keyed by the fetched user's id). -/
def resetPassword (db : Db) (email otp newPassword : String)
    (hash : String → String) (now : Nat) : AuthResult × Db :=
  if email == "" || otp == "" || newPassword == "" then
    (.fieldsRequired, db)
  else
    let res := verifyOTP db email otp "forgot_password" now
    if !res.1 then
      (.invalidOrExpiredOtp, res.2)
    else
      match res.2.find? (fun u => u.email == email) with
      | none => (.userNotFound, res.2)
      | some user =>
        let hashed := hash newPassword
        (.passwordResetSuccess,
          res.2.map (fun u =>
            if u.id == user.id then { u with password := hashed } else u))

/-! ### Helper lemmas -/

/-- `find?` by email commutes with a row transformation that does not
change emails. -/
theorem find?_email_map (db : Db) (f : User → User) (e : String)
    (hf : ∀ u, (f u).email = u.email) :
    (db.map f).find? (fun u => u.email == e) =
      (db.find? (fun u => u.email == e)).map f := by
  induction db with
  | nil => rfl
  | cons u tl ih =>
    by_cases h : u.email = e
    · have hbe : (u.email == e) = true := by simpa using h
      simp [List.find?, hf, hbe]
    · have hbe : (u.email == e) = false := by simpa using h
      simp [List.find?, hf, hbe, ih]

/-- A failing `verifyOTP` leaves the table unchanged. -/
theorem verifyOTP_false_snd (db : Db) (e c p : String) (now : Nat)
    (h : (verifyOTP db e c p now).1 = false) :
    (verifyOTP db e c p now).2 = db := by
  unfold verifyOTP at h ⊢
  cases hf : db.find? (fun u => u.email == e) with
  | none => simp [hf]
  | some u =>
    simp only [hf] at h ⊢
    split
    · rfl
    · rename_i hcond
      rw [if_neg hcond] at h
      simp at h

/-- Characterization of a successful `verifyOTP` in terms of the row the
lookup finds. -/
theorem verifyOTP_true_iff (db : Db) (e c p : String) (now : Nat) :
    (verifyOTP db e c p now).1 = true ↔
      ∃ u, db.find? (fun x => x.email == e) = some u ∧
        u.otpCode = some c ∧ u.otpType = some p ∧ u.otpUsed = false ∧
        ∃ t, u.otpExpiresAt = some t ∧ now < t := by
  unfold verifyOTP
  cases hf : db.find? (fun u => u.email == e) with
  | none => simp [hf]
  | some u =>
    simp only [hf]
    split
    · rename_i hcond
      simp only [Bool.or_eq_true, bne_iff_ne, ne_eq, decide_eq_true_eq] at hcond
      refine iff_of_false (by simp) ?_
      rintro ⟨u', hu', h1, h2, h3, t, h4, h5⟩
      obtain rfl : u = u' := by simpa using hu'
      rcases hcond with ((h | h) | h) | h
      · exact h h1
      · exact h h2
      · simp [h] at h3
      · rw [h4] at h
        simp only [dateVal] at h
        omega
    · rename_i hcond
      simp only [Bool.or_eq_true, bne_iff_ne, ne_eq, decide_eq_true_eq,
        not_or] at hcond
      obtain ⟨⟨⟨h1, h2⟩, h3⟩, h4⟩ := hcond
      simp only [not_not] at h1 h2
      refine iff_of_true rfl ?_
      refine ⟨u, rfl, h1, h2, by simpa using h3, ?_⟩
      cases hexp : u.otpExpiresAt with
      | none => rw [hexp] at h4; simp [dateVal] at h4
      | some t =>
        rw [hexp] at h4
        simp only [dateVal, not_le] at h4
        exact ⟨t, rfl, h4⟩

/-- A successful `verifyOTP` marks the matching rows used and changes
nothing else. -/
theorem verifyOTP_true_snd (db : Db) (e c p : String) (now : Nat)
    (h : (verifyOTP db e c p now).1 = true) :
    (verifyOTP db e c p now).2 =
      db.map (fun u => if u.email == e then { u with otpUsed := true } else u) := by
  unfold verifyOTP at h ⊢
  cases hf : db.find? (fun u => u.email == e) with
  | none => simp [hf] at h
  | some u =>
    simp only [hf] at h ⊢
    split
    · rename_i hcond
      rw [if_pos hcond] at h
      simp at h
    · rfl

/-- `storeOTP` rewrites the code slot of the row the email lookup finds. -/
theorem find?_storeOTP_self (db : Db) (e c ty : String) (t : Nat) (u : User)
    (hfind : db.find? (fun x => x.email == e) = some u) :
    (storeOTP db e c ty t).find? (fun x => x.email == e) =
      some { u with otpCode := some c, otpType := some ty,
                    otpExpiresAt := some (t + otpWindowMs), otpUsed := false } := by
  unfold storeOTP
  rw [find?_email_map]
  · rw [hfind]
    have hu0 := List.find?_some hfind
    simp only at hu0
    simp only [Option.map_some']
    rw [if_pos hu0]
  · intro v
    by_cases hv : (v.email == e) = true <;> simp [hv]

/-! ### Claims -/

/-- C1: the Verification Engine returns `true` exactly when a user with
the email exists and the stored code, purpose, used-flag and expiry all
match; in every other case, an absent user included, it returns `false`. -/
theorem C1_verify_iff_valid (db : Db) (e c p : String) (now : Nat) :
    (verifyOTP db e c p now).1 = true ↔
      ∃ u, db.find? (fun x => x.email == e) = some u ∧
        u.otpCode = some c ∧ u.otpType = some p ∧ u.otpUsed = false ∧
        ∃ t, u.otpExpiresAt = some t ∧ now < t :=
  verifyOTP_true_iff db e c p now

/-- C5: issuance stamps the slot with `now + 10 minutes` (in ms), and a
code submitted at or after its stored expiry never verifies. -/
theorem C5_expiry_window :
    (∀ (db : Db) (e c ty : String) (t : Nat),
        ∀ u2 ∈ storeOTP db e c ty t, u2.email = e →
          u2.otpExpiresAt = some (t + 10 * 60 * 1000)) ∧
    (∀ (db : Db) (e c p : String) (now : Nat) (u : User) (texp : Nat),
        db.find? (fun x => x.email == e) = some u →
        u.otpExpiresAt = some texp → texp ≤ now →
        (verifyOTP db e c p now).1 = false) := by
  constructor
  · intro db e c ty t u2 hmem hemail
    obtain ⟨v, hv, rfl⟩ := List.mem_map.mp hmem
    by_cases hve : (v.email == e) = true
    · simp [hve, otpWindowMs]
    · simp only [hve, if_neg] at hemail ⊢
      simp only [Bool.not_eq_true, beq_eq_false_iff_ne, ne_eq] at hve
      exact absurd hemail hve
  · intro db e c p now u texp hfind hexp hle
    cases hres : (verifyOTP db e c p now).1 with
    | false => rfl
    | true =>
      obtain ⟨u', hfind', _, _, _, t', ht', hlt⟩ :=
        (verifyOTP_true_iff db e c p now).mp hres
      rw [hfind] at hfind'
      obtain rfl : u = u' := by simpa using hfind'
      rw [hexp] at ht'
      obtain rfl : texp = t' := by simpa using ht'
      omega

/-- C6: for an existing unverified user, `login` never reaches the
password comparison: the outcome is the same for every password and every
comparison function, is the "code sent, verify to continue" success, and
is never `InvalidCredentials`. -/
theorem C6_login_unverified_ignores_password (db : Db) (e p1 p2 : String)
    (cmp1 cmp2 : String → String → Bool) (c : String) (t : Nat) (u : User)
    (hfind : db.find? (fun x => x.email == e) = some u)
    (hunv : u.isVerified = false) :
    login db e p1 cmp1 c t = login db e p2 cmp2 c t ∧
    (login db e p1 cmp1 c t).1 = AuthResult.emailNotVerifiedOtpSent ∧
    (login db e p1 cmp1 c t).1 ≠ AuthResult.invalidCredentials := by
  unfold login
  simp [hfind, hunv]

/-- C9: `register-verify` with a code that does not verify returns the
generic invalid-or-expired error and leaves the table untouched — the
user stays unverified and no token is minted. -/
theorem C9_register_verify_failure_frame (db : Db) (e c : String) (now : Nat)
    (he : e ≠ "") (hc : c ≠ "")
    (hfail : (verifyOTP db e c "registration" now).1 = false) :
    registerVerify db e c now = (AuthResult.invalidOrExpiredOtp, db) := by
  have he' : (e == "") = false := by simpa using he
  have hc' : (c == "") = false := by simpa using hc
  unfold registerVerify
  rw [he', hc']
  simp only [Bool.or_self, Bool.false_or, if_neg, Bool.false_eq_true,
    not_false_eq_true]
  rw [hfail]
  simp only [Bool.not_false, if_pos]
  rw [verifyOTP_false_snd db e c "registration" now hfail]

/-- C10: the user-not-found branch of `reset-password` that follows a
successful verification is dead: a valid `forgot_password` code always
leads to the password hash being overwritten, never to `NotFound`. -/
theorem C10_reset_password_no_notfound (db : Db) (e c npw : String)
    (hash : String → String) (now : Nat)
    (he : e ≠ "") (hc : c ≠ "") (hn : npw ≠ "")
    (hok : (verifyOTP db e c "forgot_password" now).1 = true) :
    (resetPassword db e c npw hash now).1 = AuthResult.passwordResetSuccess ∧
    ∃ u2 ∈ (resetPassword db e c npw hash now).2,
      u2.email = e ∧ u2.password = hash npw := by
  have he' : (e == "") = false := by simpa using he
  have hc' : (c == "") = false := by simpa using hc
  have hn' : (npw == "") = false := by simpa using hn
  obtain ⟨u, hfind, _, _, _, _, _, _⟩ :=
    (verifyOTP_true_iff db e c "forgot_password" now).mp hok
  have hsnd := verifyOTP_true_snd db e c "forgot_password" now hok
  have hemail0 := List.find?_some hfind
  simp only at hemail0
  have hemail : (u.email == e) = true := hemail0
  have hfind2 : (verifyOTP db e c "forgot_password" now).2.find?
      (fun x => x.email == e) = some { u with otpUsed := true } := by
    rw [hsnd, find?_email_map]
    · rw [hfind]
      simp only [Option.map_some']
      rw [if_pos hemail]
    · intro v
      by_cases hv : (v.email == e) = true <;> simp [hv]
  unfold resetPassword
  rw [he', hc', hn']
  simp only [Bool.or_self, Bool.false_or, if_neg, Bool.false_eq_true,
    not_false_eq_true]
  rw [hok]
  simp only [Bool.not_true, Bool.false_eq_true, if_neg, not_false_eq_true]
  rw [hfind2]
  refine ⟨rfl, ?_⟩
  refine ⟨{ u with otpUsed := true, password := hash npw }, ?_, ?_, rfl⟩
  · have hmem : ({ u with otpUsed := true } : User) ∈
        (verifyOTP db e c "forgot_password" now).2 :=
      List.mem_of_find?_eq_some hfind2
    have := List.mem_map_of_mem (fun v =>
      if v.id == ({ u with otpUsed := true } : User).id then
        { v with password := hash npw } else v) hmem
    simpa using this
  · simpa using hemail

/-- A fresh unverified row used by the concrete witnesses. -/
def annFresh : User :=
  { id := 0, fullname := "Ann", email := "a@x", password := "h",
      isVerified := false }

/-- `annFresh` with a live `registration` code issued at 5 ms. -/
def annIssued : User :=
  { id := 0, fullname := "Ann", email := "a@x", password := "h",
      isVerified := false, otpCode := some "123456",
      otpType := some "registration", otpExpiresAt := some 600005,
      otpUsed := false }

/-- A verified row holding a live `forgot_password` code. -/
def annReset : User :=
  { id := 0, fullname := "Ann", email := "a@x", password := "h",
      isVerified := true, otpCode := some "222222",
      otpType := some "forgot_password", otpExpiresAt := some 600000,
      otpUsed := false }

/-- Witness for C5 at a concrete store and a concrete expired submission. -/
theorem C5_expiry_window_witness :
    annIssued.otpExpiresAt = some 600005 ∧
    (verifyOTP [annIssued] "a@x" "123456" "registration" 600005).1 = false :=
  ⟨C5_expiry_window.1 [annFresh] "a@x" "123456" "registration" 5 annIssued
      (by decide) (by decide),
    C5_expiry_window.2 [annIssued] "a@x" "123456" "registration" 600005
      annIssued 600005 (by decide) (by decide) (by decide)⟩

/-- Witness for C6: an unverified user, two different passwords and two
different comparison functions produce identical outcomes. -/
theorem C6_login_unverified_ignores_password_witness :
    login [annFresh] "a@x" "p1" (fun _ _ => false) "111111" 7 =
      login [annFresh] "a@x" "p2" (fun _ _ => true) "111111" 7 ∧
    (login [annFresh] "a@x" "p1" (fun _ _ => false) "111111" 7).1 =
      AuthResult.emailNotVerifiedOtpSent ∧
    (login [annFresh] "a@x" "p1" (fun _ _ => false) "111111" 7).1 ≠
      AuthResult.invalidCredentials :=
  C6_login_unverified_ignores_password [annFresh] "a@x" "p1" "p2"
    (fun _ _ => false) (fun _ _ => true) "111111" 7 annFresh (by decide)
    (by decide)

/-- Witness for C9: a verification attempt against an empty store. -/
theorem C9_register_verify_failure_frame_witness :
    registerVerify [] "a@x" "111111" 0 =
      (AuthResult.invalidOrExpiredOtp, ([] : Db)) :=
  C9_register_verify_failure_frame [] "a@x" "111111" 0 (by decide) (by decide)
    (by decide)

/-- Witness for C10: a valid reset code on a concrete store. -/
theorem C10_reset_password_no_notfound_witness :
    (resetPassword [annReset] "a@x" "222222" "NewPass1" (fun _ => "H") 0).1 =
      AuthResult.passwordResetSuccess ∧
    ∃ u2 ∈ (resetPassword [annReset] "a@x" "222222" "NewPass1"
        (fun _ => "H") 0).2,
      u2.email = "a@x" ∧ u2.password = (fun _ => "H") "NewPass1" :=
  C10_reset_password_no_notfound [annReset] "a@x" "222222" "NewPass1"
    (fun _ => "H") 0 (by decide) (by decide) (by decide) (by decide)

/-- `register-initiate` for an existing unverified user reduces to a
re-issue of a fresh `registration` code. -/
theorem registerInitiate_unverified (db : Db) (f e pw : String)
    (hash : String → String) (c : String) (t : Nat) (u : User)
    (hf : f ≠ "") (he : e ≠ "") (hpw : pw ≠ "")
    (hfind : db.find? (fun x => x.email == e) = some u)
    (hunv : u.isVerified = false) :
    registerInitiate db f e pw hash c t =
      (AuthResult.otpSentRegistration, storeOTP db e c "registration" t) := by
  have hf' : (f == "") = false := by simpa using hf
  have he' : (e == "") = false := by simpa using he
  have hp' : (pw == "") = false := by simpa using hpw
  unfold registerInitiate
  rw [hf', he', hp']
  simp only [Bool.or_self, Bool.or_false, Bool.false_or, Bool.false_eq_true,
    if_neg, not_false_eq_true]
  rw [hfind]
  simp [hunv]

/-- The identity and credential fields of a row: everything except the
one-time-code slot. -/
def identityFields (u : User) : Nat × String × String × String × Bool :=
  (u.id, u.fullname, u.email, u.password, u.isVerified)

/-- C8: re-initiating registration for an existing unverified user only
rewrites the code slot: id, fullname, email, password hash and
verification flag of every row are untouched, and the supplied password
and hash function do not influence the outcome at all. -/
theorem C8_register_initiate_frame (db : Db) (f e pw : String)
    (hash : String → String) (c : String) (t : Nat) (u : User)
    (hf : f ≠ "") (he : e ≠ "") (hpw : pw ≠ "")
    (hfind : db.find? (fun x => x.email == e) = some u)
    (hunv : u.isVerified = false) :
    ((registerInitiate db f e pw hash c t).2).map identityFields =
      db.map identityFields ∧
    ∀ (pw2 : String) (hash2 : String → String), pw2 ≠ "" →
      registerInitiate db f e pw2 hash2 c t =
        registerInitiate db f e pw hash c t := by
  have h1 := registerInitiate_unverified db f e pw hash c t u hf he hpw hfind hunv
  constructor
  · rw [h1]
    show (storeOTP db e c "registration" t).map identityFields = _
    unfold storeOTP
    rw [List.map_map]
    apply List.map_congr_left
    intro v _
    by_cases hve : (v.email == e) = true
    · simp [Function.comp, hve, identityFields]
    · simp [Function.comp, hve, identityFields]
  · intro pw2 hash2 hpw2
    rw [h1,
      registerInitiate_unverified db f e pw2 hash2 c t u hf he hpw2 hfind hunv]

/-- Witness for C8 on a concrete unverified user. -/
theorem C8_register_initiate_frame_witness :
    ((registerInitiate [annFresh] "Ann" "a@x" "Pass1" (fun _ => "H1")
        "111111" 3).2).map identityFields = [annFresh].map identityFields ∧
    ∀ (pw2 : String) (hash2 : String → String), pw2 ≠ "" →
      registerInitiate [annFresh] "Ann" "a@x" pw2 hash2 "111111" 3 =
      registerInitiate [annFresh] "Ann" "a@x" "Pass1" (fun _ => "H1")
        "111111" 3 :=
  C8_register_initiate_frame [annFresh] "Ann" "a@x" "Pass1" (fun _ => "H1")
    "111111" 3 annFresh (by decide) (by decide) (by decide) (by decide)
    (by decide)

/-- C4: issuing `register-initiate` twice in a row for the same
unverified user leaves the second code in the slot; the first code no
longer verifies, while the second does within its window. -/
theorem C4_overwrite_newest_code_wins (db : Db) (u : User)
    (f e pw c1 c2 : String) (hash : String → String) (t1 t2 now : Nat)
    (hf : f ≠ "") (he : e ≠ "") (hpw : pw ≠ "")
    (hfind : db.find? (fun x => x.email == e) = some u)
    (hunv : u.isVerified = false)
    (hne : c1 ≠ c2) (hwin : now < t2 + otpWindowMs) :
    (verifyOTP (registerInitiate (registerInitiate db f e pw hash c1 t1).2
        f e pw hash c2 t2).2 e c1 "registration" now).1 = false ∧
    (verifyOTP (registerInitiate (registerInitiate db f e pw hash c1 t1).2
        f e pw hash c2 t2).2 e c2 "registration" now).1 = true ∧
    ∃ u2, (registerInitiate (registerInitiate db f e pw hash c1 t1).2
        f e pw hash c2 t2).2.find? (fun x => x.email == e) = some u2 ∧
      u2.otpCode = some c2 := by
  have h1 := registerInitiate_unverified db f e pw hash c1 t1 u hf he hpw hfind hunv
  have h1' : (registerInitiate db f e pw hash c1 t1).2 =
      storeOTP db e c1 "registration" t1 := by rw [h1]
  have hfind1 := find?_storeOTP_self db e c1 "registration" t1 u hfind
  have h2 := registerInitiate_unverified (storeOTP db e c1 "registration" t1)
    f e pw hash c2 t2 _ hf he hpw hfind1 hunv
  have h2' : (registerInitiate (storeOTP db e c1 "registration" t1)
      f e pw hash c2 t2).2 =
      storeOTP (storeOTP db e c1 "registration" t1) e c2 "registration" t2 := by
    rw [h2]
  have hfind2 := find?_storeOTP_self (storeOTP db e c1 "registration" t1)
    e c2 "registration" t2 _ hfind1
  rw [h1', h2']
  refine ⟨?_, ?_, ?_⟩
  · cases hres : (verifyOTP (storeOTP (storeOTP db e c1 "registration" t1)
        e c2 "registration" t2) e c1 "registration" now).1 with
    | false => rfl
    | true =>
      obtain ⟨u', hfind', hcode, _, _, _, _, _⟩ :=
        (verifyOTP_true_iff _ e c1 "registration" now).mp hres
      rw [hfind2] at hfind'
      obtain rfl : _ = u' := by simpa using hfind'
      exact absurd (by simpa using hcode.symm) hne
  · exact (verifyOTP_true_iff _ e c2 "registration" now).mpr
      ⟨_, hfind2, rfl, rfl, rfl, t2 + otpWindowMs, rfl, hwin⟩
  · exact ⟨_, hfind2, rfl⟩

/-- Witness for C4 on a concrete unverified user and two distinct codes. -/
theorem C4_overwrite_newest_code_wins_witness :
    (verifyOTP (registerInitiate (registerInitiate [annFresh] "Ann" "a@x"
        "Pass1" (fun _ => "H") "111111" 0).2 "Ann" "a@x" "Pass1"
        (fun _ => "H") "222222" 10).2 "a@x" "111111" "registration" 20).1 =
      false ∧
    (verifyOTP (registerInitiate (registerInitiate [annFresh] "Ann" "a@x"
        "Pass1" (fun _ => "H") "111111" 0).2 "Ann" "a@x" "Pass1"
        (fun _ => "H") "222222" 10).2 "a@x" "222222" "registration" 20).1 =
      true ∧
    ∃ u2, (registerInitiate (registerInitiate [annFresh] "Ann" "a@x"
        "Pass1" (fun _ => "H") "111111" 0).2 "Ann" "a@x" "Pass1"
        (fun _ => "H") "222222" 10).2.find?
      (fun x => x.email == "a@x") = some u2 ∧ u2.otpCode = some "222222" :=
  C4_overwrite_newest_code_wins [annFresh] annFresh "Ann" "a@x" "Pass1"
    "111111" "222222" (fun _ => "H") 0 10 20 (by decide) (by decide)
    (by decide) (by decide) (by decide) (by decide) (by decide)

/-! ### Decimal-numeral facts for the code generator

`generateOTP` stringifies the drawn integer with JavaScript's
`Number.prototype.toString`, embedded as `Nat.repr`.  To reason about
which code strings are reachable we prove that reading the decimal
numeral back recovers the number. -/

/-- Numeric value of a decimal digit character. -/
def digitToNat (ch : Char) : Nat := ch.toNat - 48

/-- Read a char list as a decimal numeral, starting from `acc`. -/
def charListVal (acc : Nat) (cs : List Char) : Nat :=
  cs.foldl (fun a ch => a * 10 + digitToNat ch) acc

/-- Numeric value of a string read as a decimal numeral. -/
def strVal (s : String) : Nat := charListVal 0 s.data

theorem charListVal_acc (cs : List Char) (acc : Nat) :
    charListVal acc cs = acc * 10 ^ cs.length + charListVal 0 cs := by
  induction cs generalizing acc with
  | nil => simp [charListVal]
  | cons ch tl ih =>
    show charListVal (acc * 10 + digitToNat ch) tl = _
    rw [ih]
    conv_rhs =>
      rw [show charListVal 0 (ch :: tl) =
        charListVal (0 * 10 + digitToNat ch) tl from rfl]
    rw [ih (0 * 10 + digitToNat ch)]
    simp only [List.length_cons, pow_succ]
    ring

theorem digitToNat_digitChar (m : Nat) (h : m < 10) :
    digitToNat (Nat.digitChar m) = m := by
  interval_cases m <;> decide

theorem charListVal_toDigitsCore (f : Nat) : ∀ (n : Nat) (l : List Char),
    n < f →
    charListVal 0 (Nat.toDigitsCore 10 f n l) =
      n * 10 ^ l.length + charListVal 0 l := by
  induction f with
  | zero => intro n l h; omega
  | succ f ih =>
    intro n l h
    simp only [Nat.toDigitsCore]
    by_cases h0 : n / 10 = 0
    · rw [if_pos h0]
      have hn : n < 10 := by omega
      show charListVal (0 * 10 + digitToNat (Nat.digitChar (n % 10))) l = _
      rw [digitToNat_digitChar _ (by omega)]
      rw [charListVal_acc]
      have hmod : n % 10 = n := Nat.mod_eq_of_lt hn
      rw [hmod]
      ring_nf
    · rw [if_neg h0]
      have h1 : n / 10 < f := by omega
      rw [ih (n / 10) (Nat.digitChar (n % 10) :: l) h1]
      have h2 : charListVal 0 (Nat.digitChar (n % 10) :: l) =
          (n % 10) * 10 ^ l.length + charListVal 0 l := by
        show charListVal (0 * 10 + digitToNat (Nat.digitChar (n % 10))) l = _
        rw [digitToNat_digitChar _ (by omega)]
        rw [charListVal_acc]
        ring_nf
      rw [h2]
      simp only [List.length_cons, pow_succ]
      have h3 := Nat.div_add_mod n 10
      set k := (10 : Nat) ^ l.length with hk
      have h4 : n * k = (n / 10) * (k * 10) + (n % 10) * k := by
        conv_lhs => rw [← h3]
        ring
      omega

/-- Reading back the decimal representation recovers the number. -/
theorem strVal_repr (n : Nat) : strVal (Nat.repr n) = n := by
  show charListVal 0 (Nat.toDigitsCore 10 (n + 1) n []) = n
  rw [charListVal_toDigitsCore (n + 1) n [] (Nat.lt_succ_self n)]
  simp [charListVal]

theorem digitToNat_lt_toDigitsCore (f : Nat) : ∀ (n : Nat) (l : List Char),
    (∀ ch ∈ l, digitToNat ch < 10) →
    ∀ ch ∈ Nat.toDigitsCore 10 f n l, digitToNat ch < 10 := by
  induction f with
  | zero => intro n l hl; simpa [Nat.toDigitsCore] using hl
  | succ f ih =>
    intro n l hl
    simp only [Nat.toDigitsCore]
    by_cases h0 : n / 10 = 0
    · rw [if_pos h0]
      intro ch hch
      rcases List.mem_cons.mp hch with rfl | hch
      · rw [digitToNat_digitChar _ (by omega)]; omega
      · exact hl ch hch
    · rw [if_neg h0]
      apply ih
      intro ch hch
      rcases List.mem_cons.mp hch with rfl | hch
      · rw [digitToNat_digitChar _ (by omega)]; omega
      · exact hl ch hch

theorem charListVal_lt (cs : List Char)
    (h : ∀ ch ∈ cs, digitToNat ch < 10) :
    charListVal 0 cs < 10 ^ cs.length := by
  induction cs with
  | nil => simp [charListVal]
  | cons ch tl ih =>
    have hd : digitToNat ch < 10 := h ch (List.mem_cons_self ch tl)
    have htl : charListVal 0 tl < 10 ^ tl.length :=
      ih (fun c hc => h c (List.mem_cons_of_mem _ hc))
    show charListVal (0 * 10 + digitToNat ch) tl < _
    rw [charListVal_acc]
    simp only [List.length_cons, pow_succ]
    set k := (10 : Nat) ^ tl.length with hk
    have hkpos : 0 < k := by positivity
    have hmul : (0 * 10 + digitToNat ch) * k ≤ 9 * k := by
      apply Nat.mul_le_mul_right
      omega
    nlinarith

/-- Every decimal representation of a number with at least six digits has
length at least six. -/
theorem repr_length_ge_six (n : Nat) (h : 100000 ≤ n) :
    6 ≤ (Nat.repr n).length := by
  by_contra hlt
  push_neg at hlt
  have hd : ∀ ch ∈ (Nat.repr n).data, digitToNat ch < 10 := by
    have hdata : (Nat.repr n).data = Nat.toDigitsCore 10 (n + 1) n [] := rfl
    rw [hdata]
    exact digitToNat_lt_toDigitsCore (n + 1) n [] (by simp)
  have hb := charListVal_lt (Nat.repr n).data hd
  have hv : charListVal 0 (Nat.repr n).data = n := strVal_repr n
  rw [hv] at hb
  have hlen : (Nat.repr n).data.length = (Nat.repr n).length := rfl
  have hpow : (10 : Nat) ^ (Nat.repr n).data.length ≤ 10 ^ 5 :=
    Nat.pow_le_pow_right (by norm_num) (by omega)
  have h5 : (10 : Nat) ^ 5 = 100000 := by norm_num
  omega

/-- The string produced for any value `crypto.randomInt(100000, 999999)`
can draw has exactly six characters. -/
theorem generateOTP_length (n : Nat) (h1 : 100000 ≤ n) (h2 : n < 999999) :
    (generateOTP n).length = 6 := by
  have hle : (Nat.repr n).length ≤ 6 :=
    Nat.repr_length n 6 (by norm_num)
      (by rw [show (10 : Nat) ^ 6 = 1000000 from by norm_num]; omega)
  have hge := repr_length_ge_six n h1
  unfold generateOTP
  omega

/-- C7 counterexample: the code "999999" is a six-digit numeric string
that `generateOTP` can never produce, because the upper bound of
`crypto.randomInt` is exclusive. -/
theorem C7_counterexample_999999 :
    ¬ ∃ n, randomIntDraw n ∧ generateOTP n = "999999" := by
  rintro ⟨n, ⟨h1, h2⟩, h3⟩
  have hv := strVal_repr n
  unfold generateOTP at h3
  rw [h3] at hv
  have : strVal "999999" = 999999 := by decide
  omega

/-- C7 (amended): every draw yields a six-character numeric string whose
decimal value is the draw itself, and exactly the decimal strings of
100000 through 999998 are reachable outputs. -/
theorem C7_generate_range :
    (∀ n, randomIntDraw n →
      (generateOTP n).length = 6 ∧ strVal (generateOTP n) = n ∧
      100000 ≤ n ∧ n ≤ 999998) ∧
    (∀ m, 100000 ≤ m → m ≤ 999998 →
      ∃ n, randomIntDraw n ∧ generateOTP n = Nat.repr m) := by
  constructor
  · rintro n ⟨h1, h2⟩
    exact ⟨generateOTP_length n h1 h2, strVal_repr n, h1, by omega⟩
  · intro m hm1 hm2
    exact ⟨m, ⟨hm1, by omega⟩, rfl⟩

/-- Witness for C7 at the concrete draw 123456. -/
theorem C7_generate_range_witness :
    ((generateOTP 123456).length = 6 ∧ strVal (generateOTP 123456) = 123456 ∧
      100000 ≤ 123456 ∧ 123456 ≤ 999998) ∧
    ∃ n, randomIntDraw n ∧ generateOTP n = Nat.repr 123456 :=
  ⟨C7_generate_range.1 123456 (by constructor <;> norm_num),
    C7_generate_range.2 123456 (by norm_num) (by norm_num)⟩

/-! ### Shapes of the table each handler can leave behind -/

/-- The row `prisma.user.create` inserts on the fresh-registration path. -/
def createdUser (db : Db) (f e hp : String) : User :=
  { id := db.length, fullname := f, email := e, password := hp,
      isVerified := false }

theorem registerInitiate_snd (db : Db) (f e pw : String)
    (hash : String → String) (c : String) (t : Nat) :
    (registerInitiate db f e pw hash c t).2 = db ∨
    (registerInitiate db f e pw hash c t).2 =
      storeOTP db e c "registration" t ∨
    (registerInitiate db f e pw hash c t).2 =
      storeOTP (db ++ [createdUser db f e (hash pw)]) e c "registration"
        t := by
  unfold registerInitiate
  by_cases hval : (f == "" || e == "" || pw == "") = true
  · rw [if_pos hval]; left; rfl
  · rw [if_neg hval]
    cases hf : db.find? (fun u => u.email == e) with
    | none => simp only [hf]; right; right; rfl
    | some existing =>
      simp only [hf]
      by_cases hv : existing.isVerified = true
      · rw [if_pos hv]; left; rfl
      · rw [if_neg hv]; right; left; rfl

theorem registerVerify_snd (db : Db) (e c : String) (t : Nat) :
    (registerVerify db e c t).2 = db ∨
    (registerVerify db e c t).2 =
      (verifyOTP db e c "registration" t).2.map
        (fun u => if u.email == e then { u with isVerified := true }
          else u) := by
  unfold registerVerify
  by_cases hval : (e == "" || c == "") = true
  · rw [if_pos hval]; left; rfl
  · rw [if_neg hval]
    cases hres : (verifyOTP db e c "registration" t).1 with
    | false =>
      left
      simp only [hres, Bool.not_false, if_true]
      exact verifyOTP_false_snd _ _ _ _ _ hres
    | true =>
      right
      simp only [hres, Bool.not_true, Bool.false_eq_true, if_neg,
        not_false_eq_true]
      cases hf2 : ((verifyOTP db e c "registration" t).2.map
          (fun u => if u.email == e then { u with isVerified := true }
            else u)).find? (fun u => u.email == e) with
      | none => simp [hf2]
      | some user => simp [hf2]

theorem login_snd (db : Db) (e pw : String)
    (cmp : String → String → Bool) (c : String) (t : Nat) :
    (login db e pw cmp c t).2 = db ∨
    (login db e pw cmp c t).2 = storeOTP db e c "registration" t := by
  unfold login
  cases hf : db.find? (fun u => u.email == e) with
  | none => simp [hf]
  | some user =>
    cases hb : user.isVerified with
    | false => simp [hf, hb]
    | true =>
      by_cases hcmp : cmp pw user.password = true
      · simp [hf, hb, hcmp]
      · have hcmp2 : cmp pw user.password = false := by
          cases h2 : cmp pw user.password
          · rfl
          · exact absurd h2 hcmp
        simp [hf, hb, hcmp2]

theorem forgotPassword_snd (db : Db) (e c : String) (t : Nat) :
    (forgotPassword db e c t).2 = db ∨
    (forgotPassword db e c t).2 = storeOTP db e c "forgot_password" t := by
  unfold forgotPassword
  by_cases hval : (e == "") = true
  · rw [if_pos hval]; left; rfl
  · rw [if_neg hval]
    cases hf : db.find? (fun u => u.email == e) with
    | none => simp [hf]
    | some user => simp [hf]

theorem resetPassword_snd (db : Db) (e c npw : String)
    (hash : String → String) (t : Nat) :
    (resetPassword db e c npw hash t).2 = db ∨
    (resetPassword db e c npw hash t).2 =
      (verifyOTP db e c "forgot_password" t).2 ∨
    ∃ uid, (resetPassword db e c npw hash t).2 =
      (verifyOTP db e c "forgot_password" t).2.map
        (fun u => if u.id == uid then { u with password := hash npw }
          else u) := by
  unfold resetPassword
  by_cases hval : (e == "" || c == "" || npw == "") = true
  · rw [if_pos hval]; left; rfl
  · rw [if_neg hval]
    cases hres : (verifyOTP db e c "forgot_password" t).1 with
    | false =>
      left
      simp only [hres, Bool.not_false, if_true]
      exact verifyOTP_false_snd _ _ _ _ _ hres
    | true =>
      simp only [hres, Bool.not_true, Bool.false_eq_true, if_neg,
        not_false_eq_true]
      cases hf2 : (verifyOTP db e c "forgot_password" t).2.find?
          (fun u => u.email == e) with
      | none => simp only [hf2]; right; left; trivial
      | some user =>
        simp only [hf2]
        right; right
        exact ⟨user.id, rfl⟩

/-! ### Reachable tables and the code-slot invariant -/

/-- Tables reachable from an empty store by any sequence of the public
operations, with arbitrary inputs, clocks, generated codes, hashing and
comparison functions. -/
inductive Reachable : Db → Prop where
  | empty : Reachable []
  | regInitiate (db : Db) (f e pw : String) (hash : String → String)
      (c : String) (t : Nat) : Reachable db →
      Reachable (registerInitiate db f e pw hash c t).2
  | regVerify (db : Db) (e c : String) (t : Nat) : Reachable db →
      Reachable (registerVerify db e c t).2
  | loginOp (db : Db) (e pw : String) (cmp : String → String → Bool)
      (c : String) (t : Nat) : Reachable db →
      Reachable (login db e pw cmp c t).2
  | forgotOp (db : Db) (e c : String) (t : Nat) : Reachable db →
      Reachable (forgotPassword db e c t).2
  | resetOp (db : Db) (e c npw : String) (hash : String → String)
      (t : Nat) : Reachable db → Reachable (resetPassword db e c npw hash t).2
  | cleanupOp (db : Db) (t : Nat) : Reachable db →
      Reachable (cleanupExpiredOTPs db t)

/-- The code-slot invariant exactly as the spec states it. -/
def codeSlotSpecInv (db : Db) : Prop :=
  ∀ u ∈ db, u.otpCode ≠ none →
    u.otpType ≠ none ∧ u.otpExpiresAt ≠ none ∧ u.otpUsed = false

/-- Per-row part of the invariant that does hold: a stored code always
comes with a purpose and an expiry. -/
def slotOk (u : User) : Prop :=
  u.otpCode ≠ none → u.otpType ≠ none ∧ u.otpExpiresAt ≠ none

/-- Table-wide version of `slotOk`. -/
def slotFieldsPresent (db : Db) : Prop := ∀ u ∈ db, slotOk u

theorem slotFieldsPresent_map {db : Db} {f : User → User}
    (h : slotFieldsPresent db)
    (hf : ∀ u ∈ db, slotOk u → slotOk (f u)) :
    slotFieldsPresent (db.map f) := by
  intro u hu
  obtain ⟨v, hv, rfl⟩ := List.mem_map.mp hu
  exact hf v hv (h v hv)

theorem slotFieldsPresent_storeOTP (db : Db) (e c ty : String) (t : Nat)
    (h : slotFieldsPresent db) :
    slotFieldsPresent (storeOTP db e c ty t) := by
  unfold storeOTP
  apply slotFieldsPresent_map h
  intro u _ hu
  by_cases hue : (u.email == e) = true
  · rw [if_pos hue]
    intro _
    exact ⟨by simp, by simp⟩
  · rw [if_neg hue]
    exact hu

theorem slotFieldsPresent_verifyOTP (db : Db) (e c p : String) (now : Nat)
    (h : slotFieldsPresent db) :
    slotFieldsPresent (verifyOTP db e c p now).2 := by
  cases hres : (verifyOTP db e c p now).1
  · rw [verifyOTP_false_snd _ _ _ _ _ hres]; exact h
  · rw [verifyOTP_true_snd _ _ _ _ _ hres]
    apply slotFieldsPresent_map h
    intro u _ hu
    by_cases hue : (u.email == e) = true
    · rw [if_pos hue]
      intro hc
      exact hu hc
    · rw [if_neg hue]
      exact hu

theorem slotFieldsPresent_cleanup (db : Db) (t : Nat)
    (h : slotFieldsPresent db) :
    slotFieldsPresent (cleanupExpiredOTPs db t) := by
  unfold cleanupExpiredOTPs
  apply slotFieldsPresent_map h
  intro u _ hu
  by_cases hm : (match u.otpExpiresAt with
      | some t2 => decide (t2 < t)
      | none => false) = true
  · rw [if_pos hm]
    intro hc
    simp at hc
  · rw [if_neg hm]
    exact hu

/-- The weakened invariant is preserved by every reachable table. -/
theorem slotFieldsPresent_of_reachable (db : Db) (h : Reachable db) :
    slotFieldsPresent db := by
  induction h with
  | empty => intro u hu; simp at hu
  | regInitiate db f e pw hash c t _ ih =>
    rcases registerInitiate_snd db f e pw hash c t with h1 | h1 | h1 <;>
      rw [h1]
    · exact ih
    · exact slotFieldsPresent_storeOTP db e c "registration" t ih
    · apply slotFieldsPresent_storeOTP
      intro u hu
      rcases List.mem_append.mp hu with hu | hu
      · exact ih u hu
      · simp only [List.mem_singleton] at hu
        subst hu
        intro hc
        simp [createdUser] at hc
  | regVerify db e c t _ ih =>
    rcases registerVerify_snd db e c t with h1 | h1 <;> rw [h1]
    · exact ih
    · apply slotFieldsPresent_map
        (slotFieldsPresent_verifyOTP db e c "registration" t ih)
      intro u _ hu
      by_cases hue : (u.email == e) = true
      · rw [if_pos hue]
        intro hc
        exact hu hc
      · rw [if_neg hue]
        exact hu
  | loginOp db e pw cmp c t _ ih =>
    rcases login_snd db e pw cmp c t with h1 | h1 <;> rw [h1]
    · exact ih
    · exact slotFieldsPresent_storeOTP db e c "registration" t ih
  | forgotOp db e c t _ ih =>
    rcases forgotPassword_snd db e c t with h1 | h1 <;> rw [h1]
    · exact ih
    · exact slotFieldsPresent_storeOTP db e c "forgot_password" t ih
  | resetOp db e c npw hash t _ ih =>
    rcases resetPassword_snd db e c npw hash t with h1 | h1 | ⟨uid, h1⟩ <;>
      rw [h1]
    · exact ih
    · exact slotFieldsPresent_verifyOTP db e c "forgot_password" t ih
    · apply slotFieldsPresent_map
        (slotFieldsPresent_verifyOTP db e c "forgot_password" t ih)
      intro u _ hu
      by_cases hid : (u.id == uid) = true
      · rw [if_pos hid]
        intro hc
        exact hu hc
      · rw [if_neg hid]
        exact hu
  | cleanupOp db t _ ih => exact slotFieldsPresent_cleanup db t ih

/-- The row left behind by registering and then verifying `a@x`:
the code stays in the slot with `used = true`. -/
def annVerifiedUsed : User :=
  { id := 0, fullname := "Ann", email := "a@x", password := "H",
      isVerified := true, otpCode := some "123456",
      otpType := some "registration", otpExpiresAt := some 600000,
      otpUsed := true }

/-- C3 counterexample: a successful `register-verify` marks the code used
but never clears it, so a reachable row has a non-null code with
`used = true`, refuting the `used = false` part of the claimed invariant. -/
theorem C3_counterexample_used_code_retained :
    ¬ (∀ db, Reachable db → codeSlotSpecInv db) := by
  intro hyp
  have hre : Reachable (registerVerify (registerInitiate [] "Ann" "a@x"
      "Pass1" (fun _ => "H") "123456" 0).2 "a@x" "123456" 1).2 :=
    Reachable.regVerify _ "a@x" "123456" 1
      (Reachable.regInitiate [] "Ann" "a@x" "Pass1" (fun _ => "H")
        "123456" 0 Reachable.empty)
  have h2 := hyp _ hre annVerifiedUsed (by decide) (by decide)
  exact absurd h2.2.2 (by decide)

/-- C3 (amended): on every reachable table, a non-null code comes with a
non-null purpose and a non-null expiry; the used flag, however, can be
`true` while the code is still stored, because verification marks the
slot used without clearing it. -/
theorem C3_code_slot_invariant (db : Db) (h : Reachable db) :
    ∀ u ∈ db, u.otpCode ≠ none →
      u.otpType ≠ none ∧ u.otpExpiresAt ≠ none :=
  slotFieldsPresent_of_reachable db h

/-- The row stored by a fresh `register-initiate` of `a@x` at time 0. -/
def annStored : User :=
  { id := 0, fullname := "Ann", email := "a@x", password := "H",
      isVerified := false, otpCode := some "123456",
      otpType := some "registration", otpExpiresAt := some 600000,
      otpUsed := false }

/-- Witness for C3 (amended) on a concrete reachable table. -/
theorem C3_code_slot_invariant_witness :
    annStored.otpType ≠ none ∧ annStored.otpExpiresAt ≠ none :=
  C3_code_slot_invariant
    (registerInitiate [] "Ann" "a@x" "Pass1" (fun _ => "H") "123456" 0).2
    (Reachable.regInitiate [] "Ann" "a@x" "Pass1" (fun _ => "H") "123456" 0
      Reachable.empty)
    annStored (by decide) (by decide)

/-! ### Single-use: a verified code stays dead until a new issuance -/

/-- Per-row: the code `c` can no longer verify for email `e` — either the
slot is marked used or it holds a different code. -/
def spentCode (e c : String) (u : User) : Prop :=
  u.email = e → u.otpUsed = true ∨ u.otpCode ≠ some c

/-- Table-wide version of `spentCode`. -/
def codeSpent (e c : String) (db : Db) : Prop := ∀ u ∈ db, spentCode e c u

/-- One step of any public operation that does not issue a code to `e`:
`register-verify`, `reset-password` and `cleanupExpired` with arbitrary
inputs, and `register-initiate`, `login`, `forgot-password` for a
different email. -/
inductive StepAway (e : String) : Db → Db → Prop where
  | regInitiate (db : Db) (f e2 pw : String) (hash : String → String)
      (c : String) (t : Nat) (hne : e2 ≠ e) :
      StepAway e db (registerInitiate db f e2 pw hash c t).2
  | regVerify (db : Db) (e2 c : String) (t : Nat) :
      StepAway e db (registerVerify db e2 c t).2
  | loginOp (db : Db) (e2 pw : String) (cmp : String → String → Bool)
      (c : String) (t : Nat) (hne : e2 ≠ e) :
      StepAway e db (login db e2 pw cmp c t).2
  | forgotOp (db : Db) (e2 c : String) (t : Nat) (hne : e2 ≠ e) :
      StepAway e db (forgotPassword db e2 c t).2
  | resetOp (db : Db) (e2 c npw : String) (hash : String → String)
      (t : Nat) : StepAway e db (resetPassword db e2 c npw hash t).2
  | cleanupOp (db : Db) (t : Nat) : StepAway e db (cleanupExpiredOTPs db t)

theorem codeSpent_map {e c : String} {db : Db} {f : User → User}
    (h : codeSpent e c db)
    (hf : ∀ u ∈ db, spentCode e c u → spentCode e c (f u)) :
    codeSpent e c (db.map f) := by
  intro u hu
  obtain ⟨v, hv, rfl⟩ := List.mem_map.mp hu
  exact hf v hv (h v hv)

theorem codeSpent_storeOTP {e c : String} (db : Db) (e2 c2 ty : String)
    (t : Nat) (hne : e2 ≠ e) (h : codeSpent e c db) :
    codeSpent e c (storeOTP db e2 c2 ty t) := by
  unfold storeOTP
  apply codeSpent_map h
  intro u _ hu
  by_cases hue : (u.email == e2) = true
  · rw [if_pos hue]
    intro hemail
    exfalso
    have hu2 : u.email = e2 := by simpa using hue
    have hemail2 : u.email = e := hemail
    exact hne (hu2 ▸ hemail2)
  · rw [if_neg hue]
    exact hu

theorem codeSpent_verifyOTP {e c : String} (db : Db) (e2 c2 p2 : String)
    (t : Nat) (h : codeSpent e c db) :
    codeSpent e c (verifyOTP db e2 c2 p2 t).2 := by
  cases hres : (verifyOTP db e2 c2 p2 t).1
  · rw [verifyOTP_false_snd _ _ _ _ _ hres]; exact h
  · rw [verifyOTP_true_snd _ _ _ _ _ hres]
    apply codeSpent_map h
    intro u _ hu
    by_cases hue : (u.email == e2) = true
    · rw [if_pos hue]
      intro _
      left
      rfl
    · rw [if_neg hue]
      exact hu

theorem codeSpent_mapVerified {e c : String} (db : Db) (e2 : String)
    (h : codeSpent e c db) :
    codeSpent e c (db.map (fun u =>
      if u.email == e2 then { u with isVerified := true } else u)) := by
  apply codeSpent_map h
  intro u _ hu
  by_cases hue : (u.email == e2) = true
  · rw [if_pos hue]
    intro hemail
    exact hu hemail
  · rw [if_neg hue]
    exact hu

theorem codeSpent_mapPassword {e c : String} (db : Db) (uid : Nat)
    (pw2 : String) (h : codeSpent e c db) :
    codeSpent e c (db.map (fun u =>
      if u.id == uid then { u with password := pw2 } else u)) := by
  apply codeSpent_map h
  intro u _ hu
  by_cases hid : (u.id == uid) = true
  · rw [if_pos hid]
    intro hemail
    exact hu hemail
  · rw [if_neg hid]
    exact hu

theorem codeSpent_cleanup {e c : String} (db : Db) (t : Nat)
    (h : codeSpent e c db) :
    codeSpent e c (cleanupExpiredOTPs db t) := by
  unfold cleanupExpiredOTPs
  apply codeSpent_map h
  intro u _ hu
  by_cases hm : (match u.otpExpiresAt with
      | some t2 => decide (t2 < t)
      | none => false) = true
  · rw [if_pos hm]
    intro _
    right
    simp
  · rw [if_neg hm]
    exact hu

theorem codeSpent_step {e c : String} {db db2 : Db} (h : codeSpent e c db)
    (hs : StepAway e db db2) : codeSpent e c db2 := by
  cases hs with
  | regInitiate f e2 pw hash c2 t hne =>
    rcases registerInitiate_snd db f e2 pw hash c2 t with h1 | h1 | h1 <;>
      rw [h1]
    · exact h
    · exact codeSpent_storeOTP db e2 c2 "registration" t hne h
    · apply codeSpent_storeOTP _ _ _ _ _ hne
      intro u hu
      rcases List.mem_append.mp hu with hu | hu
      · exact h u hu
      · simp only [List.mem_singleton] at hu
        subst hu
        intro hemail
        exact absurd hemail hne
  | regVerify e2 c2 t =>
    rcases registerVerify_snd db e2 c2 t with h1 | h1 <;> rw [h1]
    · exact h
    · exact codeSpent_mapVerified _ e2
        (codeSpent_verifyOTP db e2 c2 "registration" t h)
  | loginOp e2 pw cmp c2 t hne =>
    rcases login_snd db e2 pw cmp c2 t with h1 | h1 <;> rw [h1]
    · exact h
    · exact codeSpent_storeOTP db e2 c2 "registration" t hne h
  | forgotOp e2 c2 t hne =>
    rcases forgotPassword_snd db e2 c2 t with h1 | h1 <;> rw [h1]
    · exact h
    · exact codeSpent_storeOTP db e2 c2 "forgot_password" t hne h
  | resetOp e2 c2 npw hash t =>
    rcases resetPassword_snd db e2 c2 npw hash t with h1 | h1 | ⟨uid, h1⟩ <;>
      rw [h1]
    · exact h
    · exact codeSpent_verifyOTP db e2 c2 "forgot_password" t h
    · exact codeSpent_mapPassword _ uid _
        (codeSpent_verifyOTP db e2 c2 "forgot_password" t h)
  | cleanupOp t => exact codeSpent_cleanup db t h

theorem codeSpent_steps {e c : String} {db db2 : Db} (h : codeSpent e c db)
    (hs : Relation.ReflTransGen (StepAway e) db db2) : codeSpent e c db2 := by
  induction hs with
  | refl => exact h
  | tail _ hstep ih => exact codeSpent_step ih hstep

theorem codeSpent_verify_false {e c : String} {db : Db}
    (h : codeSpent e c db) (p : String) (now : Nat) :
    (verifyOTP db e c p now).1 = false := by
  cases hres : (verifyOTP db e c p now).1
  · rfl
  · exfalso
    obtain ⟨u, hfind, hcode, _, hused, _⟩ :=
      (verifyOTP_true_iff db e c p now).mp hres
    have hm := List.mem_of_find?_eq_some hfind
    have he0 := List.find?_some hfind
    simp only at he0
    have hemail : u.email = e := by simpa using he0
    rcases h u hm hemail with h2 | h2
    · simp [hused] at h2
    · exact h2 hcode

theorem codeSpent_after_success {db : Db} {e c p : String} {now : Nat}
    (hsucc : (verifyOTP db e c p now).1 = true) :
    codeSpent e c (verifyOTP db e c p now).2 := by
  rw [verifyOTP_true_snd _ _ _ _ _ hsucc]
  intro u hu
  obtain ⟨v, hv, rfl⟩ := List.mem_map.mp hu
  by_cases hue : (v.email == e) = true
  · rw [if_pos hue]
    intro _
    left
    rfl
  · rw [if_neg hue]
    intro hemail
    exact absurd hemail (by simpa using hue)

/-- C2: once a code verifies for a user, every later verification attempt
with that same code for that user fails — with any purpose, at any time,
and across any interleaving of operations that does not issue a new code
to the user. -/
theorem C2_single_use (db : Db) (e c p : String) (now : Nat) (db2 : Db)
    (hsucc : (verifyOTP db e c p now).1 = true)
    (hsteps : Relation.ReflTransGen (StepAway e)
      (verifyOTP db e c p now).2 db2)
    (p2 : String) (now2 : Nat) :
    (verifyOTP db2 e c p2 now2).1 = false :=
  codeSpent_verify_false
    (codeSpent_steps (codeSpent_after_success hsucc) hsteps) p2 now2

/-- Witness for C2: an immediate resubmission of the just-verified code. -/
theorem C2_single_use_witness :
    (verifyOTP (verifyOTP [annStored] "a@x" "123456" "registration" 0).2
      "a@x" "123456" "registration" 0).1 = false :=
  C2_single_use [annStored] "a@x" "123456" "registration" 0
    (verifyOTP [annStored] "a@x" "123456" "registration" 0).2 (by decide)
    Relation.ReflTransGen.refl "registration" 0

end Follower
